import Mathlib

/-!
Shallow embedding of the ajnavarro/go-ipfs excerpt:

* the router parameter model of package `config` (src/unnamed/part_000);
* the routing factory and tiered router of package `routing`
  (src/unnamed/part_001);
* the backpressure resource manager wrapper
  (src/core/node/libp2p/rcmgr_bp.go).

External collaborators (the kad-dht constructor, the full-routing-table
constructor, the delegated-routing client constructor, the delegate
resource manager) are modelled as opaque descriptors or as function
parameters: the embedding records which collaborator is invoked with
which arguments, which is exactly what the spec's claims are about.
-/

/-- A dynamically typed Go value stored in a `RouterParams` map
(Go type `map[string]interface` with empty interface values).  The
`other` constructor stands for a value of any dynamic type different
from the four types the accessors test for; the type assertions
`.(string)`, `.(int)`, `.([]string)`, `.(bool)` fail on it. -/
inductive GoValue where
  | str (s : String)
  | int (n : Int)
  | strSlice (l : List String)
  | bool (b : Bool)
  | other (tag : String)
deriving DecidableEq, Repr

/-- `RouterParams` from src/unnamed/part_000: the loosely typed parameter
map of a configured router.  Go maps have unique keys; we model the map
as an association list read through first-match `lookup`, so duplicate
keys behave as if only the first entry existed. -/
abbrev RouterParams : Type := List (String × GoValue)

/-- Map indexing `rp[string(key)]`: first entry with the given key. -/
def RouterParams.lookup : RouterParams → String → Option GoValue
  | [], _ => none
  | (k, v) :: rest, key => if k = key then some v else RouterParams.lookup rest key

/-- Removing a key from the map (used to state that a wrong-typed value
behaves exactly as an absent one). -/
def RouterParams.eraseKey : RouterParams → String → RouterParams
  | [], _ => []
  | kv :: rest, key =>
    if kv.1 = key then RouterParams.eraseKey rest key
    else kv :: RouterParams.eraseKey rest key

/-- Method `String` of `RouterParams`: `out, ok := rp[string(key)].(string)`.
The Go type assertion with two results yields the zero value and `false`
both when the key is absent (nil interface) and when the value has a
different dynamic type; it never panics, which the totality of this
function reflects. -/
def RouterParams.getString (rp : RouterParams) (key : String) : String × Bool :=
  match rp.lookup key with
  | some (GoValue.str s) => (s, true)
  | _ => ("", false)

/-- Method `Number` of `RouterParams`: `out, ok := rp[string(key)].(int)`. -/
def RouterParams.getNumber (rp : RouterParams) (key : String) : Int × Bool :=
  match rp.lookup key with
  | some (GoValue.int n) => (n, true)
  | _ => (0, false)

/-- Method `StringSlice` of `RouterParams`: the `[]string` type assertion. -/
def RouterParams.getStringSlice (rp : RouterParams) (key : String) : List String × Bool :=
  match rp.lookup key with
  | some (GoValue.strSlice l) => (l, true)
  | _ => ([], false)

/-- Method `Bool` of `RouterParams`: the `bool` type assertion. -/
def RouterParams.getBool (rp : RouterParams) (key : String) : Bool × Bool :=
  match rp.lookup key with
  | some (GoValue.bool b) => (b, true)
  | _ => (false, false)

/-- A configured router (struct `Router` of package config).  The Go field
`Type` is called `typ` here because `Type` is reserved in Lean; the
`Enabled` flag plays no role in the claims and is omitted. -/
structure Router where
  typ : String
  Parameters : RouterParams

def RouterTypeReframe : String := "reframe"

def RouterTypeDHT : String := "dht"

def RouterParamEndpoint : String := "Endpoint"

def RouterParamPriority : String := "Priority"

def RouterParamDHTType : String := "Mode"

def RouterParamTrackFullNetworkDHT : String := "TrackFullNetworkDHT"

def RouterParamBootstrappers : String := "Bootstrappers"

def RouterValueDHTTypeServer : String := "dhtserver"

def RouterValueDHTTypeClient : String := "dhtclient"

def RouterValueDHTTypeNone : String := "none"

def RouterValueDHTType : String := "dht"

/-- `RouterValueDHTTypes` of package config, in source order. -/
def RouterValueDHTTypes : List String :=
  [RouterValueDHTType, RouterValueDHTTypeServer, RouterValueDHTTypeClient, RouterValueDHTTypeNone]

/-- The construction-time errors of package routing.  `paramNeeded`
models `NewParamNeededErr(param, routerType)`; `invalidValue` models
`InvalidValueError` with its fields `ParamName`, `InvalidValue` and
`ValidValues`; `clientErr` models an error returned by the external
`New_DelegatedRouting_Client` constructor. -/
inductive RoutingErr where
  | paramNeeded (param : String) (routerType : String)
  | invalidValue (ParamName : String) (InvalidValue : String) (ValidValues : List String)
  | clientErr (msg : String)
deriving DecidableEq, Repr

def defaultPriority : Int := 100000

/-- `GetPriority` from src/unnamed/part_001: extract the priority from the
config params, defaulting to `defaultPriority` when `Number` reports the
key as absent or wrong-typed. -/
def GetPriority (params : RouterParams) : Int :=
  let p := params.getNumber RouterParamPriority
  if p.2 then p.1 else defaultPriority

/-- Result of a successful `ReframeRoutingFromConfig`: the wrapper around
the delegated-routing client built for the given endpoint address. -/
inductive ReframeRouting where
  | wrapper (endpoint : String)
deriving DecidableEq, Repr

/-- `ReframeRoutingFromConfig` from src/unnamed/part_001.  The external
constructor `New_DelegatedRouting_Client` is passed in as `newClient`
(its success value is irrelevant to the claims and is `Unit`). -/
def ReframeRoutingFromConfig (newClient : String → Except String Unit)
    (conf : Router) : Except RoutingErr ReframeRouting :=
  let a := conf.Parameters.getString RouterParamEndpoint
  if !a.2 then Except.error (RoutingErr.paramNeeded RouterParamEndpoint conf.typ)
  else
    match newClient a.1 with
    | Except.error e => Except.error (RoutingErr.clientErr e)
    | Except.ok _ => Except.ok (ReframeRouting.wrapper a.1)

/-- The kad-dht operating modes used by the factory (`dht.ModeAuto`,
`dht.ModeClient`, `dht.ModeServer`). -/
inductive DHTMode where
  | auto
  | client
  | server
deriving DecidableEq, Repr

/-- Descriptor of the routing implementation built by the DHT factory.
`dht mode concurrency` records a call of the external `dht.New` with the
given mode and `dht.Concurrency` option; `fullRT bucketSize` records a
call of the external `fullrt.NewFullRT` with the given `dht.BucketSize`
option; `nullRouting` is the `routinghelpers.Null` value. -/
inductive DHTRouting where
  | fullRT (bucketSize : Nat)
  | nullRouting
  | dht (mode : DHTMode) (concurrency : Nat)
deriving DecidableEq, Repr

/-- `createDHT` from src/unnamed/part_001: invokes the external `dht.New`
with a fixed concurrency factor of 10 and the requested mode. -/
def createDHT (mode : DHTMode) : Except RoutingErr DHTRouting :=
  Except.ok (DHTRouting.dht mode 10)

/-- `createFullRT` from src/unnamed/part_001: invokes the external
`fullrt.NewFullRT` with a fixed bucket size of 20. -/
def createFullRT : Except RoutingErr DHTRouting :=
  Except.ok (DHTRouting.fullRT 20)

/-- The `switch dhtTP` statement of `DHTRoutingFromConfig`, factored out
on the string read by the `String` accessor (the accessor's `ok` result
is discarded by the source, so an absent or wrong-typed `Mode` reaches
this switch as the empty string). -/
def dhtModeSwitch (dhtTP : String) : Except RoutingErr DHTRouting :=
  if dhtTP = RouterValueDHTType then createDHT DHTMode.auto
  else if dhtTP = RouterValueDHTTypeClient then createDHT DHTMode.client
  else if dhtTP = RouterValueDHTTypeServer then createDHT DHTMode.server
  else if dhtTP = RouterValueDHTTypeNone then Except.ok DHTRouting.nullRouting
  else Except.error (RoutingErr.invalidValue RouterParamDHTType dhtTP RouterValueDHTTypes)

/-- `DHTRoutingFromConfig` from src/unnamed/part_001: when the
`TrackFullNetworkDHT` parameter reads as a genuine bool `true`
(`fullDHT && ok`), build the full-routing-table variant without ever
reading `Mode`; otherwise dispatch on the `Mode` string. -/
def DHTRoutingFromConfig (conf : Router) : Except RoutingErr DHTRouting :=
  let f := conf.Parameters.getBool RouterParamTrackFullNetworkDHT
  if f.1 && f.2 then createFullRT
  else dhtModeSwitch (conf.Parameters.getString RouterParamDHTType).1

/-- The operations of the `routing.Routing` capability set, used to state
what the null router does. -/
inductive RoutingOp where
  | putValue
  | getValue
  | findPeer
  | provide
  | findProvidersAsync
  | bootstrap
deriving DecidableEq, Repr

/-- Modelled from the spec: `routinghelpers.Null` is an external library
value not present in src/; the spec states that with `Mode = "none"` the
constructed router's operations "succeed trivially without doing network
work", so every operation of the null router is modelled as an immediate
success performing zero network accesses. -/
def nullRoutingRun : RoutingOp → Except RoutingErr Unit :=
  fun _ => Except.ok ()

/-- Modelled from the spec: the number of network accesses a null router
operation performs is zero. -/
def nullRoutingNetworkAccesses : RoutingOp → Nat :=
  fun _ => 0

/-- A backend router owned by a `Tiered` composite.  `rid` is an identity
tag; `batchCapable` records whether the Go dynamic type assertion
`r.(ProvideMany)` succeeds for this backend. -/
structure Backend where
  rid : Nat
  batchCapable : Bool
deriving DecidableEq, Repr

/-- The collection loop of `Tiered.ProvideMany` from src/unnamed/part_001:
walk the routers in order, keep those whose `ProvideMany` type assertion
succeeds (`continue` otherwise). -/
def collectProvideMany : List Backend → List Backend
  | [] => []
  | r :: rest =>
    if r.batchCapable then r :: collectProvideMany rest
    else collectProvideMany rest

/-- `Tiered.ProvideMany`: `none` models the nil sentinel returned when no
router qualifies; `some pms` models the `ProvideManyWrapper` holding the
qualifying routers. -/
def TieredProvideMany (routers : List Backend) : Option (List Backend) :=
  let pms := collectProvideMany routers
  if pms.length = 0 then none else some pms

/-- Whether an `Except` value is an error (`err != nil` in Go). -/
def isErr : Except E S → Bool
  | Except.error _ => true
  | Except.ok _ => false

/-- Observable outcome of one successful wrapper call of `OpenConnection`,
`OpenStream` or `BeginSpan`.  `scope` is the admitted delegate scope,
`sleeps` the number of fixed 1-second waits performed, `counter` the value
of the wrapper's in-flight counter right after the return, and `attempts`
the number of delegate calls made. -/
structure AdmissionOutcome (S : Type) where
  scope : S
  sleeps : Nat
  counter : Int
  attempts : Nat
deriving Repr, DecidableEq

/-- The retry loop of `backpressureResourceManager.OpenConnection`
(rcmgr_bp.go lines 63-73).  `delegate i` is the result of the delegate's
`OpenConnection(dir, usefd, endpoint)` on attempt `i`; the arguments are
the same on every attempt, so the delegate is indexed by the attempt
number only.  `i` counts the failed attempts so far (each one logged and
followed by one 1-second wait), `c` carries `connCount`, untouched during
failures and decremented on success.  The source loop is unbounded;
`fuel` bounds the recursion and `none` marks fuel exhaustion, which the
claims avoid by hypothesis. -/
def openConnLoop (delegate : Nat → Except E S) : Nat → Nat → Int → Option (AdmissionOutcome S)
  | 0, _, _ => none
  | fuel + 1, i, c =>
    match delegate i with
    | Except.ok cms => some ⟨cms, i, c - 1, i + 1⟩
    | Except.error _ => openConnLoop delegate fuel (i + 1) c

/-- `backpressureResourceManager.OpenConnection`: atomically increment
`connCount`, then run the unbounded retry loop; on success the counter is
decremented and the admitted scope returned with a nil error. -/
def backpressureOpenConnection (delegate : Nat → Except E S) (connCount : Int)
    (fuel : Nat) : Option (AdmissionOutcome S) :=
  openConnLoop delegate fuel 0 (connCount + 1)

/-- The retry loop of `backpressureResourceManager.OpenStream`
(rcmgr_bp.go lines 84-94), structurally identical to the connection loop
but acting on `streamCount`. -/
def openStreamLoop (delegate : Nat → Except E S) : Nat → Nat → Int → Option (AdmissionOutcome S)
  | 0, _, _ => none
  | fuel + 1, i, c =>
    match delegate i with
    | Except.ok str => some ⟨str, i, c - 1, i + 1⟩
    | Except.error _ => openStreamLoop delegate fuel (i + 1) c

/-- `backpressureResourceManager.OpenStream`: increment `streamCount`,
retry until the delegate admits, decrement on success. -/
def backpressureOpenStream (delegate : Nat → Except E S) (streamCount : Int)
    (fuel : Nat) : Option (AdmissionOutcome S) :=
  openStreamLoop delegate fuel 0 (streamCount + 1)

/-- The retry loop of `resourceScopeSpan.BeginSpan` (rcmgr_bp.go lines
192-205): no increment happens before the loop; each failed attempt
increments the per-span `counter` by one and sleeps one second, and the
eventually successful attempt decrements it by one before returning the
admitted span. -/
def beginSpanLoop (delegate : Nat → Except E S) : Nat → Nat → Int → Option (AdmissionOutcome S)
  | 0, _, _ => none
  | fuel + 1, i, c =>
    match delegate i with
    | Except.ok span => some ⟨span, i, c - 1, i + 1⟩
    | Except.error _ => beginSpanLoop delegate fuel (i + 1) (c + 1)

/-- `resourceScopeSpan.BeginSpan`: run the span retry loop starting from
the current per-span counter value. -/
def resourceScopeSpanBeginSpan (delegate : Nat → Except E S) (counter : Int)
    (fuel : Nat) : Option (AdmissionOutcome S) :=
  beginSpanLoop delegate fuel 0 counter

/-- Outcome of `resourceScopeSpan.ReserveMemory`.  `result` is the Go
error return (`none` models nil), `counter` the per-span counter after the
call, `attempts` how many times the delegate's `ReserveMemory` was
invoked, and `logged` whether the error line was printed. -/
structure ReserveOutcome (E : Type) where
  result : Option E
  counter : Int
  attempts : Nat
  logged : Bool
deriving Repr, DecidableEq

/-- `resourceScopeSpan.ReserveMemory` (rcmgr_bp.go lines 172-178):
`delegate size prio` is the delegate's result for the size and priority
the caller passed, forwarded unchanged; one single delegate call, the
error logged and returned as is, the wrapper state untouched. -/
def resourceScopeSpanReserveMemory (delegate : Nat → Nat → Option E)
    (size prio : Nat) (counter : Int) : ReserveOutcome E :=
  match delegate size prio with
  | some e => ⟨some e, counter, 1, true⟩
  | none => ⟨none, counter, 1, false⟩

theorem openConnLoop_eq {E S : Type} (d : Nat → Except E S) (s : S) :
    ∀ (n fuel i : Nat) (c : Int), (∀ j, j < n → isErr (d (i + j)) = true) →
      d (i + n) = Except.ok s → n < fuel →
      openConnLoop d fuel i c = some ⟨s, i + n, c - 1, i + n + 1⟩ := by
  intro n
  induction n with
  | zero =>
    intro fuel i c _ hok hf
    match fuel, hf with
    | fuel + 1, _ =>
      simp only [openConnLoop]
      rw [show i + 0 = i from rfl] at hok
      rw [hok]
      rfl
  | succ n ih =>
    intro fuel i c h hok hf
    match fuel, hf with
    | fuel + 1, hf =>
      have h0 : isErr (d i) = true := by
        have := h 0 (Nat.succ_pos n)
        simpa using this
      simp only [openConnLoop]
      cases hd : d i with
      | ok v => rw [hd] at h0; simp [isErr] at h0
      | error e =>
        have step := ih fuel (i + 1) c
          (fun j hj => by
            rw [show i + 1 + j = i + (j + 1) by omega]
            exact h (j + 1) (by omega))
          (by rw [show i + 1 + n = i + (n + 1) by omega]; exact hok)
          (by omega)
        rw [show i + (n + 1) = i + 1 + n by omega]
        exact step

theorem openStreamLoop_eq {E S : Type} (d : Nat → Except E S) (s : S) :
    ∀ (n fuel i : Nat) (c : Int), (∀ j, j < n → isErr (d (i + j)) = true) →
      d (i + n) = Except.ok s → n < fuel →
      openStreamLoop d fuel i c = some ⟨s, i + n, c - 1, i + n + 1⟩ := by
  intro n
  induction n with
  | zero =>
    intro fuel i c _ hok hf
    match fuel, hf with
    | fuel + 1, _ =>
      simp only [openStreamLoop]
      rw [show i + 0 = i from rfl] at hok
      rw [hok]
      rfl
  | succ n ih =>
    intro fuel i c h hok hf
    match fuel, hf with
    | fuel + 1, hf =>
      have h0 : isErr (d i) = true := by
        have := h 0 (Nat.succ_pos n)
        simpa using this
      simp only [openStreamLoop]
      cases hd : d i with
      | ok v => rw [hd] at h0; simp [isErr] at h0
      | error e =>
        have step := ih fuel (i + 1) c
          (fun j hj => by
            rw [show i + 1 + j = i + (j + 1) by omega]
            exact h (j + 1) (by omega))
          (by rw [show i + 1 + n = i + (n + 1) by omega]; exact hok)
          (by omega)
        rw [show i + (n + 1) = i + 1 + n by omega]
        exact step

theorem beginSpanLoop_eq {E S : Type} (d : Nat → Except E S) (s : S) :
    ∀ (n fuel i : Nat) (c : Int), (∀ j, j < n → isErr (d (i + j)) = true) →
      d (i + n) = Except.ok s → n < fuel →
      beginSpanLoop d fuel i c = some ⟨s, i + n, c + n - 1, i + n + 1⟩ := by
  intro n
  induction n with
  | zero =>
    intro fuel i c _ hok hf
    match fuel, hf with
    | fuel + 1, _ =>
      simp only [beginSpanLoop]
      rw [show i + 0 = i from rfl] at hok
      rw [hok]
      simp
  | succ n ih =>
    intro fuel i c h hok hf
    match fuel, hf with
    | fuel + 1, hf =>
      have h0 : isErr (d i) = true := by
        have := h 0 (Nat.succ_pos n)
        simpa using this
      simp only [beginSpanLoop]
      cases hd : d i with
      | ok v => rw [hd] at h0; simp [isErr] at h0
      | error e =>
        have step := ih fuel (i + 1) (c + 1)
          (fun j hj => by
            rw [show i + 1 + j = i + (j + 1) by omega]
            exact h (j + 1) (by omega))
          (by rw [show i + 1 + n = i + (n + 1) by omega]; exact hok)
          (by omega)
        rw [show i + (n + 1) = i + 1 + n by omega]
        show beginSpanLoop d fuel (i + 1) (c + 1) = _
        rw [step]
        simp only [Option.some.injEq, AdmissionOutcome.mk.injEq]
        refine ⟨trivial, trivial, by push_cast; omega, trivial⟩

/-- The observable part of an admission outcome: everything except the
in-flight counter (the admitted scope, the delegate calls made, the waits
performed). -/
def admissionObs (r : AdmissionOutcome S) : S × Nat × Nat :=
  (r.scope, r.sleeps, r.attempts)

theorem openConnLoop_obs {E S : Type} (d : Nat → Except E S) :
    ∀ (fuel i : Nat) (c c' : Int),
      (openConnLoop d fuel i c).map admissionObs = (openConnLoop d fuel i c').map admissionObs := by
  intro fuel
  induction fuel with
  | zero => intro i c c'; rfl
  | succ fuel ih =>
    intro i c c'
    simp only [openConnLoop]
    cases d i with
    | ok v => rfl
    | error e => exact ih (i + 1) c c'

theorem openStreamLoop_obs {E S : Type} (d : Nat → Except E S) :
    ∀ (fuel i : Nat) (c c' : Int),
      (openStreamLoop d fuel i c).map admissionObs = (openStreamLoop d fuel i c').map admissionObs := by
  intro fuel
  induction fuel with
  | zero => intro i c c'; rfl
  | succ fuel ih =>
    intro i c c'
    simp only [openStreamLoop]
    cases d i with
    | ok v => rfl
    | error e => exact ih (i + 1) c c'

theorem beginSpanLoop_obs {E S : Type} (d : Nat → Except E S) :
    ∀ (fuel i : Nat) (c c' : Int),
      (beginSpanLoop d fuel i c).map admissionObs = (beginSpanLoop d fuel i c').map admissionObs := by
  intro fuel
  induction fuel with
  | zero => intro i c c'; rfl
  | succ fuel ih =>
    intro i c c'
    simp only [beginSpanLoop]
    cases d i with
    | ok v => rfl
    | error e => exact ih (i + 1) (c + 1) (c' + 1)

theorem RouterParams.lookup_eraseKey_self (rp : RouterParams) (key : String) :
    (rp.eraseKey key).lookup key = none := by
  induction rp with
  | nil => rfl
  | cons kv rest ih =>
    obtain ⟨k1, v1⟩ := kv
    simp only [RouterParams.eraseKey]
    by_cases h : k1 = key
    · simpa [h] using ih
    · simp only [h, if_false]
      simpa [RouterParams.lookup, h] using ih

theorem RouterParams.lookup_eraseKey_ne (rp : RouterParams) (key k : String) (h : k ≠ key) :
    (rp.eraseKey key).lookup k = rp.lookup k := by
  induction rp with
  | nil => rfl
  | cons kv rest ih =>
    obtain ⟨k1, v1⟩ := kv
    simp only [RouterParams.eraseKey]
    by_cases hk : k1 = key
    · simp only [hk, if_true]
      rw [ih]
      simp [RouterParams.lookup, (Ne.symm h : key ≠ k)]
    · simp only [hk, if_false]
      by_cases hkk : k1 = k
      · simp [RouterParams.lookup, hkk]
      · simp only [RouterParams.lookup, hkk, if_false]
        exact ih

theorem RouterParams.getString_congr {rp rp' : RouterParams} {k : String}
    (h : rp.lookup k = rp'.lookup k) : rp.getString k = rp'.getString k := by
  unfold RouterParams.getString
  rw [h]

theorem RouterParams.getNumber_congr {rp rp' : RouterParams} {k : String}
    (h : rp.lookup k = rp'.lookup k) : rp.getNumber k = rp'.getNumber k := by
  unfold RouterParams.getNumber
  rw [h]

theorem RouterParams.getStringSlice_congr {rp rp' : RouterParams} {k : String}
    (h : rp.lookup k = rp'.lookup k) : rp.getStringSlice k = rp'.getStringSlice k := by
  unfold RouterParams.getStringSlice
  rw [h]

theorem RouterParams.getBool_congr {rp rp' : RouterParams} {k : String}
    (h : rp.lookup k = rp'.lookup k) : rp.getBool k = rp'.getBool k := by
  unfold RouterParams.getBool
  rw [h]

theorem RouterParams.getString_absent (rp : RouterParams) (k : String)
    (h : rp.lookup k = none) : rp.getString k = ("", false) := by
  unfold RouterParams.getString
  rw [h]

theorem RouterParams.getNumber_absent (rp : RouterParams) (k : String)
    (h : rp.lookup k = none) : rp.getNumber k = (0, false) := by
  unfold RouterParams.getNumber
  rw [h]

theorem RouterParams.getStringSlice_absent (rp : RouterParams) (k : String)
    (h : rp.lookup k = none) : rp.getStringSlice k = ([], false) := by
  unfold RouterParams.getStringSlice
  rw [h]

theorem RouterParams.getBool_absent (rp : RouterParams) (k : String)
    (h : rp.lookup k = none) : rp.getBool k = (false, false) := by
  unfold RouterParams.getBool
  rw [h]

theorem RouterParams.getString_wrongType (rp : RouterParams) (k : String) (v : GoValue)
    (hl : rp.lookup k = some v) (hv : ∀ s, v ≠ GoValue.str s) :
    rp.getString k = ("", false) := by
  unfold RouterParams.getString
  rw [hl]
  cases v with
  | str s => exact absurd rfl (hv s)
  | int n => rfl
  | strSlice l => rfl
  | bool b => rfl
  | other t => rfl

theorem RouterParams.getNumber_wrongType (rp : RouterParams) (k : String) (v : GoValue)
    (hl : rp.lookup k = some v) (hv : ∀ n, v ≠ GoValue.int n) :
    rp.getNumber k = (0, false) := by
  unfold RouterParams.getNumber
  rw [hl]
  cases v with
  | str s => rfl
  | int n => exact absurd rfl (hv n)
  | strSlice l => rfl
  | bool b => rfl
  | other t => rfl

theorem RouterParams.getStringSlice_wrongType (rp : RouterParams) (k : String) (v : GoValue)
    (hl : rp.lookup k = some v) (hv : ∀ l, v ≠ GoValue.strSlice l) :
    rp.getStringSlice k = ([], false) := by
  unfold RouterParams.getStringSlice
  rw [hl]
  cases v with
  | str s => rfl
  | int n => rfl
  | strSlice l => exact absurd rfl (hv l)
  | bool b => rfl
  | other t => rfl

theorem RouterParams.getBool_wrongType (rp : RouterParams) (k : String) (v : GoValue)
    (hl : rp.lookup k = some v) (hv : ∀ b, v ≠ GoValue.bool b) :
    rp.getBool k = (false, false) := by
  unfold RouterParams.getBool
  rw [hl]
  cases v with
  | str s => rfl
  | int n => rfl
  | strSlice l => rfl
  | bool b => exact absurd rfl (hv b)
  | other t => rfl

theorem RouterParams.getBool_true_iff (rp : RouterParams) (k : String) :
    rp.getBool k = (true, true) ↔ rp.lookup k = some (GoValue.bool true) := by
  unfold RouterParams.getBool
  cases hl : rp.lookup k with
  | none => simp
  | some v =>
    cases v with
    | str s => simp
    | int n => simp
    | strSlice l => simp
    | bool b => cases b <;> simp
    | other t => simp

theorem DHTRoutingFromConfig_not_full (conf : Router)
    (hfull : conf.Parameters.getBool RouterParamTrackFullNetworkDHT ≠ (true, true)) :
    DHTRoutingFromConfig conf = dhtModeSwitch (conf.Parameters.getString RouterParamDHTType).1 := by
  unfold DHTRoutingFromConfig
  rcases hb : conf.Parameters.getBool RouterParamTrackFullNetworkDHT with ⟨b1, b2⟩
  rw [hb] at hfull
  cases b1 <;> cases b2 <;> simp_all

theorem dhtModeSwitch_ne_fullRT (s : String) (k : Nat) :
    dhtModeSwitch s ≠ Except.ok (DHTRouting.fullRT k) := by
  unfold dhtModeSwitch createDHT
  split_ifs <;> simp

theorem collectProvideMany_eq_filter (rs : List Backend) :
    collectProvideMany rs = rs.filter (fun r => r.batchCapable) := by
  induction rs with
  | nil => rfl
  | cons r rest ih =>
    by_cases h : r.batchCapable <;>
      simp [collectProvideMany, List.filter_cons, h, ih]

/-- C1: for every delegate that rejects the first `n` OpenConnection
(resp. OpenStream) attempts and admits attempt `n + 1`, the wrapper never
returns an error: it returns the scope the delegate admitted after `n`
fixed 1-second retry intervals — for every `n`, so with no maximum retry
count — and the in-flight counter (`connCount` resp. `streamCount`)
equals its pre-call value `c0` after the successful return. -/
theorem openConnection_openStream_retry_until_admitted {E S : Type}
    (d : Nat → Except E S) (n : Nat) (s : S) (c0 : Int) (fuel : Nat)
    (hrej : ∀ i, i < n → isErr (d i) = true)
    (hok : d n = Except.ok s) (hfuel : n < fuel) :
    backpressureOpenConnection d c0 fuel = some ⟨s, n, c0, n + 1⟩ ∧
    backpressureOpenStream d c0 fuel = some ⟨s, n, c0, n + 1⟩ := by
  constructor
  · have h := openConnLoop_eq d s n fuel 0 (c0 + 1)
      (fun j hj => by simpa using hrej j hj) (by simpa using hok) hfuel
    unfold backpressureOpenConnection
    rw [h]
    simp
  · have h := openStreamLoop_eq d s n fuel 0 (c0 + 1)
      (fun j hj => by simpa using hrej j hj) (by simpa using hok) hfuel
    unfold backpressureOpenStream
    rw [h]
    simp

/-- Witness for C1: a delegate rejecting the first two attempts and
admitting the third; the wrapper returns the admitted scope after two
retry intervals and the counter is back at its pre-call value 5. -/
theorem openConnection_openStream_retry_until_admitted_witness :
    backpressureOpenConnection
        (fun i => if i < 2 then Except.error "over limit" else Except.ok 7) 5 4 =
      some ⟨7, 2, 5, 3⟩ ∧
    backpressureOpenStream
        (fun i => if i < 2 then Except.error "over limit" else Except.ok 7) 5 4 =
      some ⟨7, 2, 5, 3⟩ :=
  openConnection_openStream_retry_until_admitted _ 2 7 5 4 (by decide) rfl (by decide)

/-- C4 counterexample: the claim states the per-span counter "is not
decremented back to zero on the eventual success before the admitted span
is returned".  With a pre-call counter of 0 and a delegate that rejects
exactly the first `BeginSpan` attempt, the counter is incremented to 1 on
the failure and decremented on the success, so it is exactly 0 — back to
zero — when the admitted span is returned. -/
theorem beginSpan_counter_back_to_zero_after_one_failure :
    resourceScopeSpanBeginSpan
        (fun i => if i = 0 then Except.error "over limit" else Except.ok ()) 0 5 =
      some ⟨(), 1, 0, 2⟩ := by
  decide

/-- C4 (amended): `BeginSpan` follows the same unconditional fixed-interval
retry policy as `OpenConnection`, using its own per-span counter; the
counter is incremented on each failed attempt and decremented exactly once
on the eventual success, so a call with `n` failed attempts leaves it at
`c0 + n - 1`: it is not restored to its pre-call value except in the single
case of exactly one failed attempt. -/
theorem beginSpan_retry_policy_counter_drift {E S : Type}
    (d : Nat → Except E S) (n : Nat) (s : S) (c0 : Int) (fuel : Nat)
    (hrej : ∀ i, i < n → isErr (d i) = true)
    (hok : d n = Except.ok s) (hfuel : n < fuel) :
    resourceScopeSpanBeginSpan d c0 fuel = some ⟨s, n, c0 + n - 1, n + 1⟩ := by
  have h := beginSpanLoop_eq d s n fuel 0 c0
    (fun j hj => by simpa using hrej j hj) (by simpa using hok) hfuel
  unfold resourceScopeSpanBeginSpan
  rw [h]
  simp

/-- Witness for the amended C4: two failed attempts starting from counter
0 leave the counter at 1 after the successful return. -/
theorem beginSpan_retry_policy_counter_drift_witness :
    resourceScopeSpanBeginSpan
        (fun i => if i < 2 then Except.error "over limit" else Except.ok 0) 0 9 =
      some ⟨0, 2, 1, 3⟩ := by
  have h := beginSpan_retry_policy_counter_drift
    (fun i => if i < 2 then Except.error "over limit" else Except.ok 0)
    2 0 0 9 (by decide) rfl (by decide)
  simpa using h

/-- C5: `ReserveMemory` makes exactly one delegate attempt with no retry;
the delegate's error (or nil) is propagated unchanged to the caller on
that first attempt and the wrapper state (the per-span counter) is
unchanged, whether the delegate fails or succeeds. -/
theorem reserveMemory_single_attempt_passthrough {E : Type}
    (d : Nat → Nat → Option E) (size prio : Nat) (c : Int) :
    (resourceScopeSpanReserveMemory d size prio c).result = d size prio ∧
    (resourceScopeSpanReserveMemory d size prio c).attempts = 1 ∧
    (resourceScopeSpanReserveMemory d size prio c).counter = c := by
  unfold resourceScopeSpanReserveMemory
  cases d size prio <;> simp

/-- C9: the in-flight counters are observability-only and never gate
admission: two runs of `OpenConnection`, `OpenStream` or `BeginSpan` that
differ only in the initial counter value produce the same delegate-call
sequence (the arguments of every attempt are those of the call, so the
sequence is determined by the number of attempts) and the same returned
scope and waits — the outcome depends only on the delegate's answers. -/
theorem counters_never_gate_admission {E S : Type}
    (d : Nat → Except E S) (fuel : Nat) (c0 c1 : Int) :
    (backpressureOpenConnection d c0 fuel).map admissionObs =
      (backpressureOpenConnection d c1 fuel).map admissionObs ∧
    (backpressureOpenStream d c0 fuel).map admissionObs =
      (backpressureOpenStream d c1 fuel).map admissionObs ∧
    (resourceScopeSpanBeginSpan d c0 fuel).map admissionObs =
      (resourceScopeSpanBeginSpan d c1 fuel).map admissionObs :=
  ⟨openConnLoop_obs d fuel 0 (c0 + 1) (c1 + 1),
   openStreamLoop_obs d fuel 0 (c0 + 1) (c1 + 1),
   beginSpanLoop_obs d fuel 0 c0 c1⟩

/-- C6: `ProvideMany()` on a tiered router returns the nil sentinel
exactly when zero backends pass the batch-provide capability probe; with
at least one capable backend it returns a non-nil fan-out wrapper whose
member list is exactly the batch-capable backends in their original
order (the order-preserving filter of the backend list). -/
theorem provideMany_capability_probe (rs : List Backend) :
    (TieredProvideMany rs = none ↔ ∀ r ∈ rs, r.batchCapable = false) ∧
    ((∃ r ∈ rs, r.batchCapable = true) →
      TieredProvideMany rs = some (rs.filter (fun r => r.batchCapable))) := by
  have hcf := collectProvideMany_eq_filter rs
  unfold TieredProvideMany
  rw [hcf]
  constructor
  · constructor
    · intro h r hr
      by_cases hlen : (rs.filter (fun r => r.batchCapable)).length = 0
      · have hnil : rs.filter (fun r => r.batchCapable) = [] :=
          List.length_eq_zero.mp hlen
        have hall := List.filter_eq_nil_iff.mp hnil
        have := hall r hr
        simpa using this
      · simp [hlen] at h
    · intro h
      have hnil : rs.filter (fun r => r.batchCapable) = [] := by
        rw [List.filter_eq_nil_iff]
        intro a ha
        simp [h a ha]
      simp [hnil]
  · rintro ⟨r, hr, hcap⟩
    have hmem : r ∈ rs.filter (fun r => r.batchCapable) := by
      rw [List.mem_filter]
      exact ⟨hr, by simp [hcap]⟩
    have hlen : (rs.filter (fun r => r.batchCapable)).length ≠ 0 := by
      intro h0
      rw [List.length_eq_zero] at h0
      rw [h0] at hmem
      simp at hmem
    simp [hlen]

/-- Witness for C6: of three backends only the second and third are
batch-capable; the probe returns the fan-out over exactly those two, in
order. -/
theorem provideMany_capability_probe_witness :
    TieredProvideMany [⟨0, false⟩, ⟨1, true⟩, ⟨2, true⟩] =
      some [⟨1, true⟩, ⟨2, true⟩] :=
  (provideMany_capability_probe [⟨0, false⟩, ⟨1, true⟩, ⟨2, true⟩]).2
    ⟨⟨1, true⟩, by decide, rfl⟩

/-- C7: delegated (reframe) construction requires a string-typed
`Endpoint` parameter: when the accessor reports it missing (absent or
wrong-typed), construction fails with the missing-required-parameter
error naming `Endpoint` and the router's type; when it is present as a
string, no such error is produced (the result is the client wrapper or
an error of the external client constructor). -/
theorem reframe_endpoint_required (newClient : String → Except String Unit) (conf : Router) :
    ((conf.Parameters.getString RouterParamEndpoint).2 = false →
      ReframeRoutingFromConfig newClient conf =
        Except.error (RoutingErr.paramNeeded RouterParamEndpoint conf.typ)) ∧
    ((conf.Parameters.getString RouterParamEndpoint).2 = true →
      ∀ p t, ReframeRoutingFromConfig newClient conf ≠
        Except.error (RoutingErr.paramNeeded p t)) := by
  constructor
  · intro h
    simp [ReframeRoutingFromConfig, h]
  · intro h p t
    simp only [ReframeRoutingFromConfig, h, Bool.not_true, Bool.false_eq_true, if_false]
    cases hmc : newClient (conf.Parameters.getString RouterParamEndpoint).1 <;> simp

/-- Witness for C7: a reframe router with no parameters at all fails with
the missing-parameter error naming `Endpoint` and the type `reframe`. -/
theorem reframe_endpoint_required_witness :
    ReframeRoutingFromConfig (fun _ => Except.ok ()) ⟨"reframe", []⟩ =
      Except.error (RoutingErr.paramNeeded "Endpoint" "reframe") :=
  (reframe_endpoint_required (fun _ => Except.ok ()) ⟨"reframe", []⟩).1 rfl

/-- C8: `GetPriority` returns the configured `Priority` value when it is
present as an integer, and the large sentinel 100000 when it is absent
or present with a non-integer type, so unspecified routers sort last
under ascending-priority order. -/
theorem getPriority_default_sentinel (rp : RouterParams) :
    (∀ n : Int, rp.lookup RouterParamPriority = some (GoValue.int n) → GetPriority rp = n) ∧
    (rp.lookup RouterParamPriority = none → GetPriority rp = 100000) ∧
    (∀ v : GoValue, rp.lookup RouterParamPriority = some v →
      (∀ n : Int, v ≠ GoValue.int n) → GetPriority rp = 100000) := by
  refine ⟨?_, ?_, ?_⟩
  · intro n h
    have hn : rp.getNumber RouterParamPriority = (n, true) := by
      unfold RouterParams.getNumber
      rw [h]
    simp [GetPriority, hn]
  · intro h
    simp [GetPriority, RouterParams.getNumber_absent rp RouterParamPriority h, defaultPriority]
  · intro v hv hn
    simp [GetPriority, RouterParams.getNumber_wrongType rp RouterParamPriority v hv hn,
      defaultPriority]

/-- Witness for C8: a configured integer priority 42 is returned; an
empty parameter map yields the sentinel 100000. -/
theorem getPriority_default_sentinel_witness :
    GetPriority [("Priority", GoValue.int 42)] = 42 ∧ GetPriority [] = 100000 :=
  ⟨(getPriority_default_sentinel [("Priority", GoValue.int 42)]).1 42 rfl,
   (getPriority_default_sentinel []).2.1 rfl⟩

/-- C2 counterexample: the claim requires every dht-type configuration
with a `Mode` string outside the enum to fail with `InvalidValueError`,
but when `TrackFullNetworkDHT` is present as a genuine bool `true` the
factory returns the full-routing-table router without ever reading
`Mode`: here `Mode` is the non-enum string "bogus" and construction
succeeds with no error. -/
theorem dht_invalid_mode_no_error_on_fullrt_path :
    DHTRoutingFromConfig
        ⟨"dht", [("TrackFullNetworkDHT", GoValue.bool true), ("Mode", GoValue.str "bogus")]⟩ =
      Except.ok (DHTRouting.fullRT 20) := rfl

/-- C2 (amended): for every dht-type router configuration whose
`TrackFullNetworkDHT` parameter does not read as a genuine bool `true`,
DHT construction interprets the `Mode` string read by the accessor (the
empty string when `Mode` is absent or wrong-typed) against the enum:
"none" yields the no-op null router with no error and all its operations
succeed trivially with no network access, "dht"/"dhtclient"/"dhtserver"
construct a DHT in auto/client/server mode, and any other read string
fails with an `InvalidValueError` carrying the parameter name `Mode`,
the offending value, and the accepted set of four values. -/
theorem dht_mode_enum_interpretation (conf : Router)
    (hfull : conf.Parameters.getBool RouterParamTrackFullNetworkDHT ≠ (true, true)) :
    ((conf.Parameters.getString RouterParamDHTType).1 = "dht" →
      DHTRoutingFromConfig conf = Except.ok (DHTRouting.dht DHTMode.auto 10)) ∧
    ((conf.Parameters.getString RouterParamDHTType).1 = "dhtclient" →
      DHTRoutingFromConfig conf = Except.ok (DHTRouting.dht DHTMode.client 10)) ∧
    ((conf.Parameters.getString RouterParamDHTType).1 = "dhtserver" →
      DHTRoutingFromConfig conf = Except.ok (DHTRouting.dht DHTMode.server 10)) ∧
    ((conf.Parameters.getString RouterParamDHTType).1 = "none" →
      DHTRoutingFromConfig conf = Except.ok DHTRouting.nullRouting ∧
      (∀ op, nullRoutingRun op = Except.ok () ∧ nullRoutingNetworkAccesses op = 0)) ∧
    ((conf.Parameters.getString RouterParamDHTType).1 ∉ RouterValueDHTTypes →
      DHTRoutingFromConfig conf =
        Except.error (RoutingErr.invalidValue RouterParamDHTType
          (conf.Parameters.getString RouterParamDHTType).1 RouterValueDHTTypes)) := by
  have hswitch := DHTRoutingFromConfig_not_full conf hfull
  refine ⟨?_, ?_, ?_, ?_, ?_⟩
  · intro h
    rw [hswitch, h]
    rfl
  · intro h
    rw [hswitch, h]
    rfl
  · intro h
    rw [hswitch, h]
    rfl
  · intro h
    exact ⟨by rw [hswitch, h]; rfl, fun op => ⟨rfl, rfl⟩⟩
  · intro h
    simp only [RouterValueDHTTypes, RouterValueDHTType, RouterValueDHTTypeServer,
      RouterValueDHTTypeClient, RouterValueDHTTypeNone, List.mem_cons,
      List.not_mem_nil, or_false, not_or] at h
    obtain ⟨h1, h2, h3, h4⟩ := h
    simp only [RouterParamDHTType] at h1 h2 h3 h4
    rw [hswitch]
    simp [dhtModeSwitch, RouterValueDHTType, RouterValueDHTTypeClient,
      RouterValueDHTTypeServer, RouterValueDHTTypeNone, RouterParamDHTType,
      RouterValueDHTTypes, h1, h2, h3, h4]

/-- Witness for the amended C2: with no `TrackFullNetworkDHT` parameter
and `Mode = "dhtclient"`, construction yields a client-mode DHT. -/
theorem dht_mode_enum_interpretation_witness :
    DHTRoutingFromConfig ⟨"dht", [("Mode", GoValue.str "dhtclient")]⟩ =
      Except.ok (DHTRouting.dht DHTMode.client 10) :=
  (dht_mode_enum_interpretation ⟨"dht", [("Mode", GoValue.str "dhtclient")]⟩
    (by decide)).2.1 rfl

/-- C10: DHT construction takes the full-routing-table path exactly when
`TrackFullNetworkDHT` is present as a genuine bool `true`; in that case
`Mode` is never validated, so no `InvalidValueError` can be produced;
and any other present value (wrong type, or bool false) falls through to
the normal `Mode` switch. -/
theorem dht_fullrt_path_exactly_when_bool_true (conf : Router) :
    (DHTRoutingFromConfig conf = Except.ok (DHTRouting.fullRT 20) ↔
      conf.Parameters.lookup RouterParamTrackFullNetworkDHT = some (GoValue.bool true)) ∧
    (conf.Parameters.lookup RouterParamTrackFullNetworkDHT = some (GoValue.bool true) →
      ∀ p v vs, DHTRoutingFromConfig conf ≠
        Except.error (RoutingErr.invalidValue p v vs)) ∧
    (∀ w, conf.Parameters.lookup RouterParamTrackFullNetworkDHT = some w →
      w ≠ GoValue.bool true →
      DHTRoutingFromConfig conf =
        dhtModeSwitch (conf.Parameters.getString RouterParamDHTType).1) := by
  have hiff := RouterParams.getBool_true_iff conf.Parameters RouterParamTrackFullNetworkDHT
  refine ⟨⟨?_, ?_⟩, ?_, ?_⟩
  · intro h
    by_cases hb : conf.Parameters.getBool RouterParamTrackFullNetworkDHT = (true, true)
    · exact hiff.mp hb
    · exfalso
      rw [DHTRoutingFromConfig_not_full conf hb] at h
      exact dhtModeSwitch_ne_fullRT _ _ h
  · intro h
    have hb := hiff.mpr h
    simp [DHTRoutingFromConfig, hb, createFullRT]
  · intro h p v vs
    have hb := hiff.mpr h
    simp [DHTRoutingFromConfig, hb, createFullRT]
  · intro w hw hne
    apply DHTRoutingFromConfig_not_full
    intro hb
    rw [hiff, hw] at hb
    exact hne (Option.some.inj hb)

/-- Witness for C10: `TrackFullNetworkDHT` bool true takes the
full-routing-table path even though `Mode` holds the non-enum string
"bad". -/
theorem dht_fullrt_path_exactly_when_bool_true_witness :
    DHTRoutingFromConfig
        ⟨"dht", [("TrackFullNetworkDHT", GoValue.bool true), ("Mode", GoValue.str "bad")]⟩ =
      Except.ok (DHTRouting.fullRT 20) :=
  (dht_fullrt_path_exactly_when_bool_true
    ⟨"dht", [("TrackFullNetworkDHT", GoValue.bool true), ("Mode", GoValue.str "bad")]⟩).1.mpr rfl

/-- C3: every accessor returns (zero value, false) both when the key is
absent and when it is present with an incompatible underlying type — the
functions are total, so no panic is possible — and a wrong-typed value
behaves exactly as an absent one, both at the accessor level (equality
with the map with the key erased) and for the constructions reading
optional parameters: `GetPriority` with a non-integer `Priority` and
`DHTRoutingFromConfig` with a non-bool `TrackFullNetworkDHT` or a
non-string `Mode` behave exactly as if the parameter were absent, so
malformed optional parameters degrade to defaults instead of aborting
construction. -/
theorem params_tolerant_read (rp : RouterParams) (k : String) :
    (rp.lookup k = none →
      rp.getString k = ("", false) ∧ rp.getNumber k = (0, false) ∧
      rp.getStringSlice k = ([], false) ∧ rp.getBool k = (false, false)) ∧
    (∀ v, rp.lookup k = some v →
      ((∀ s, v ≠ GoValue.str s) →
        rp.getString k = ("", false) ∧ rp.getString k = (rp.eraseKey k).getString k) ∧
      ((∀ n, v ≠ GoValue.int n) →
        rp.getNumber k = (0, false) ∧ rp.getNumber k = (rp.eraseKey k).getNumber k) ∧
      ((∀ l, v ≠ GoValue.strSlice l) →
        rp.getStringSlice k = ([], false) ∧
        rp.getStringSlice k = (rp.eraseKey k).getStringSlice k) ∧
      ((∀ b, v ≠ GoValue.bool b) →
        rp.getBool k = (false, false) ∧ rp.getBool k = (rp.eraseKey k).getBool k)) ∧
    (∀ v, rp.lookup RouterParamPriority = some v → (∀ n, v ≠ GoValue.int n) →
      GetPriority rp = GetPriority (rp.eraseKey RouterParamPriority)) ∧
    (∀ v, rp.lookup RouterParamTrackFullNetworkDHT = some v →
      (∀ b, v ≠ GoValue.bool b) → ∀ t : String,
      DHTRoutingFromConfig ⟨t, rp⟩ =
        DHTRoutingFromConfig ⟨t, rp.eraseKey RouterParamTrackFullNetworkDHT⟩) ∧
    (∀ v, rp.lookup RouterParamDHTType = some v →
      (∀ s, v ≠ GoValue.str s) → ∀ t : String,
      DHTRoutingFromConfig ⟨t, rp⟩ =
        DHTRoutingFromConfig ⟨t, rp.eraseKey RouterParamDHTType⟩) := by
  refine ⟨?_, ?_, ?_, ?_, ?_⟩
  · intro h
    exact ⟨RouterParams.getString_absent rp k h, RouterParams.getNumber_absent rp k h,
      RouterParams.getStringSlice_absent rp k h, RouterParams.getBool_absent rp k h⟩
  · intro v hv
    refine ⟨?_, ?_, ?_, ?_⟩
    · intro hw
      refine ⟨RouterParams.getString_wrongType rp k v hv hw, ?_⟩
      rw [RouterParams.getString_wrongType rp k v hv hw,
        RouterParams.getString_absent _ _ (RouterParams.lookup_eraseKey_self rp k)]
    · intro hw
      refine ⟨RouterParams.getNumber_wrongType rp k v hv hw, ?_⟩
      rw [RouterParams.getNumber_wrongType rp k v hv hw,
        RouterParams.getNumber_absent _ _ (RouterParams.lookup_eraseKey_self rp k)]
    · intro hw
      refine ⟨RouterParams.getStringSlice_wrongType rp k v hv hw, ?_⟩
      rw [RouterParams.getStringSlice_wrongType rp k v hv hw,
        RouterParams.getStringSlice_absent _ _ (RouterParams.lookup_eraseKey_self rp k)]
    · intro hw
      refine ⟨RouterParams.getBool_wrongType rp k v hv hw, ?_⟩
      rw [RouterParams.getBool_wrongType rp k v hv hw,
        RouterParams.getBool_absent _ _ (RouterParams.lookup_eraseKey_self rp k)]
  · intro v hv hn
    have h1 := RouterParams.getNumber_wrongType rp RouterParamPriority v hv hn
    have h2 := RouterParams.getNumber_absent _ RouterParamPriority
      (RouterParams.lookup_eraseKey_self rp RouterParamPriority)
    simp [GetPriority, h1, h2]
  · intro v hv hb t
    have h1 := RouterParams.getBool_wrongType rp RouterParamTrackFullNetworkDHT v hv hb
    have h2 := RouterParams.getBool_absent _ RouterParamTrackFullNetworkDHT
      (RouterParams.lookup_eraseKey_self rp RouterParamTrackFullNetworkDHT)
    have h3 := RouterParams.getString_congr
      (RouterParams.lookup_eraseKey_ne rp RouterParamTrackFullNetworkDHT RouterParamDHTType
        (by decide))
    simp [DHTRoutingFromConfig, h1, h2, h3]
  · intro v hv hs t
    have h1 := RouterParams.getString_wrongType rp RouterParamDHTType v hv hs
    have h2 := RouterParams.getString_absent _ RouterParamDHTType
      (RouterParams.lookup_eraseKey_self rp RouterParamDHTType)
    have h3 := RouterParams.getBool_congr
      (RouterParams.lookup_eraseKey_ne rp RouterParamDHTType RouterParamTrackFullNetworkDHT
        (by decide))
    simp [DHTRoutingFromConfig, h1, h2, h3]

/-- Witness for C3: `Mode` present as the integer 3 (wrong type for a
string parameter) reads as absent and DHT construction behaves exactly
as with `Mode` removed. -/
theorem params_tolerant_read_witness :
    RouterParams.getString [("Mode", GoValue.int 3)] "Mode" = ("", false) ∧
    DHTRoutingFromConfig ⟨"dht", [("Mode", GoValue.int 3)]⟩ =
      DHTRoutingFromConfig ⟨"dht", RouterParams.eraseKey [("Mode", GoValue.int 3)] "Mode"⟩ :=
  ⟨(((params_tolerant_read [("Mode", GoValue.int 3)] "Mode").2.1 (GoValue.int 3) rfl).1
      (fun s hs => by cases hs)).1,
   ((params_tolerant_read [("Mode", GoValue.int 3)] "Mode").2.2.2.2 (GoValue.int 3) rfl
      (fun s hs => by cases hs) "dht")⟩
